import Mathlib

/-!
Verification of the failure/backoff/retry engine of `io-functions`
(`src/lib/utils/azure_queues.ts`), shallowly embedded in Lean 4.

Machine numbers are modelled as `Nat`: the delivery count supplied by the
queue transport is an integer `≥ 1`, and all backoff arithmetic stays far
below any floating-point precision boundary (the largest product is
`285 * 2^21 = 597688320`, exactly representable in a double, and the
quotient by `1000` is never within `10^-3` of an integer, so JavaScript's
`Math.ceil` of the floating division agrees with exact rational ceiling).
Promises are modelled by explicit result types: a `Promise` that can
reject becomes an `Except`/sum outcome, and the side effects performed
along the way (transport calls, callback invocations, logging of
swallowed errors) are collected in an explicit event trace.
-/

namespace AzureQueues

/-- `MAX_BACKOFF_MS = 7 * 24 * 3600 * 1000` (7 days in milliseconds),
from `azure_queues.ts` line 46. -/
def MAX_BACKOFF_MS : ℕ := 7 * 24 * 3600 * 1000

/-- `MIN_BACKOFF_MS = 285`, from `azure_queues.ts` line 47. -/
def MIN_BACKOFF_MS : ℕ := 285

/-- `MAX_RETRIES = Math.floor(Math.log2(MAX_BACKOFF_MS / MIN_BACKOFF_MS))`,
from `azure_queues.ts` lines 55-57.  For a real `x ≥ 1`,
`⌊log2 x⌋ = Nat.log 2 ⌊x⌋` (a power of two is `≤ x` iff it is `≤ ⌊x⌋`),
so the JavaScript floating computation is modelled by `Nat.log` of the
natural quotient. -/
def MAX_RETRIES : ℕ := Nat.log 2 (MAX_BACKOFF_MS / MIN_BACKOFF_MS)

/-- Exact model of `Math.ceil (a / b)` on naturals (`b > 0`). -/
def ceilDiv1000 (a : ℕ) : ℕ := (a + 999) / 1000

/-- `getDelaySecForRetries` from `azure_queues.ts` lines 63-70:
`some(retries).filter(nr => nr <= maxRetries).map(nr =>
Math.ceil((minBackoff * Math.pow(2, nr)) / 1000))`.
A pure function: no I/O, no hidden state. -/
def getDelaySecForRetries (retries : ℕ) (maxRetries : ℕ := MAX_RETRIES)
    (minBackoff : ℕ := MIN_BACKOFF_MS) : Option ℕ :=
  ((some retries).filter fun nr => nr ≤ maxRetries).map
    fun nr => ceilDiv1000 (minBackoff * 2 ^ nr)

/-- Natural-number ceiling division agrees with the rational ceiling. -/
theorem ceilDiv1000_eq_ceil (a : ℕ) : (ceilDiv1000 a : ℤ) = ⌈(a : ℚ) / 1000⌉ := by
  rw [eq_comm, Int.ceil_eq_iff]
  have hlo : ceilDiv1000 a * 1000 ≤ a + 999 := Nat.div_mul_le_self _ _
  have hhi : a + 999 < (ceilDiv1000 a + 1) * 1000 :=
    (Nat.div_lt_iff_lt_mul (by norm_num)).1 (Nat.lt_succ_self _)
  have hlo' : (ceilDiv1000 a : ℚ) * 1000 ≤ (a : ℚ) + 999 := by exact_mod_cast hlo
  have han : a ≤ ceilDiv1000 a * 1000 := by omega
  have hcast : ((ceilDiv1000 a : ℤ) : ℚ) = (ceilDiv1000 a : ℚ) := by push_cast; ring
  constructor
  · rw [hcast]
    have h1 : ((ceilDiv1000 a : ℚ) - 1) * 1000 < (a : ℚ) := by linarith
    have hd := (div_lt_div_iff_of_pos_right (show (0:ℚ) < 1000 by norm_num)).2 h1
    calc (ceilDiv1000 a : ℚ) - 1 = ((ceilDiv1000 a : ℚ) - 1) * 1000 / 1000 := by ring
    _ < (a : ℚ) / 1000 := hd
  · rw [hcast]
    have h2 : (a : ℚ) ≤ (ceilDiv1000 a : ℚ) * 1000 := by exact_mod_cast han
    have hd := (div_le_div_iff_of_pos_right (show (0:ℚ) < 1000 by norm_num)).2 h2
    calc (a : ℚ) / 1000 ≤ (ceilDiv1000 a : ℚ) * 1000 / 1000 := hd
    _ = (ceilDiv1000 a : ℚ) := by ring

theorem le_ceilDiv1000 (a : ℕ) : (a : ℚ) / 1000 ≤ (ceilDiv1000 a : ℚ) := by
  have h2 : ((ceilDiv1000 a : ℚ)) = ((⌈(a : ℚ) / 1000⌉ : ℤ) : ℚ) := by
    exact_mod_cast congrArg (fun z : ℤ => (z : ℚ)) (ceilDiv1000_eq_ceil a)
  rw [h2]
  exact Int.le_ceil _

theorem natLog_const : Nat.log 2 (MAX_BACKOFF_MS / MIN_BACKOFF_MS) = 21 := by
  have hq : MAX_BACKOFF_MS / MIN_BACKOFF_MS = 2122105 := by decide
  rw [hq]
  exact Nat.log_eq_of_pow_le_of_lt_pow (by norm_num) (by norm_num)

theorem MAX_RETRIES_eq : MAX_RETRIES = 21 := natLog_const

/-- C1: For every `retries ≤ maxRetries`, `getDelaySecForRetries` returns
`some ⌈minBackoff * 2^retries / 1000⌉` (rational ceiling, in seconds), and
for every `retries > maxRetries` it returns `none` (exhausted).  The
function is a pure Lean function, hence deterministic. -/
theorem getDelaySecForRetries_spec (retries maxRetries minBackoff : ℕ) :
    (retries ≤ maxRetries →
      getDelaySecForRetries retries maxRetries minBackoff
        = some (⌈(minBackoff * 2 ^ retries : ℚ) / 1000⌉).toNat)
    ∧ (maxRetries < retries →
      getDelaySecForRetries retries maxRetries minBackoff = none) := by
  constructor
  · intro h
    unfold getDelaySecForRetries
    rw [Option.filter_some]
    simp only [h, decide_True, if_true]
    rw [Option.map_some']
    congr 1
    have hceil := ceilDiv1000_eq_ceil (minBackoff * 2 ^ retries)
    have hcast : ((minBackoff * 2 ^ retries : ℕ) : ℚ) = (minBackoff : ℚ) * 2 ^ retries := by
      push_cast; ring
    rw [← hcast, ← hceil, Int.toNat_natCast]
  · intro h
    unfold getDelaySecForRetries
    rw [Option.filter_some]
    simp only [Nat.not_le.mpr h, decide_False]
    simp

/-- C1 witness -/
theorem getDelaySecForRetries_spec_witness :
    getDelaySecForRetries 3 21 285 = some 3
    ∧ getDelaySecForRetries 22 21 285 = none := by
  constructor
  · rw [(getDelaySecForRetries_spec 3 21 285).1 (by norm_num)]
    norm_num
    rw [show ((57 : ℚ) / 25) = ((2280 : ℕ) : ℚ) / 1000 by norm_num, ← ceilDiv1000_eq_ceil]
    decide
  · exact (getDelaySecForRetries_spec 22 21 285).2 (by norm_num)

/-- `RuntimeError` from `io-functions-commons` (an external dependency of
`azure_queues.ts`, not part of this repository's sources).  Modelled from
the spec: "A failure is a sum type: `Transient(message)` |
`Permanent(message)`". -/
inductive RuntimeError
  | transient (message : String)
  | permanent (message : String)
deriving DecidableEq

/-- The `message` field carried by either kind of failure. -/
def RuntimeError.message : RuntimeError → String
  | .transient m => m
  | .permanent m => m

/-- `isTransientError` from `io-functions-commons`.  Modelled from the
spec: `classify(error) -> Transient | Permanent`; an error is transient
exactly when it is the `Transient` variant. -/
def isTransientError : RuntimeError → Bool
  | .transient _ => true
  | .permanent _ => false

/-- The `TransientError(message)` constructor from `io-functions-commons`,
used by the orchestrator to synthesize the escalation error. -/
def TransientError (message : String) : RuntimeError := .transient message

/-- An input error of the TypeScript union `Error | RuntimeError`. -/
inductive JsError
  | plain (message : String)
  | runtime (e : RuntimeError)

/-- `toRuntimeError` from `io-functions-commons`.  Modelled from the spec:
it is the identity on already-classified failures, and an unclassified
`Error` is "not retryable by nature", hence Permanent. -/
def toRuntimeError : JsError → RuntimeError
  | .plain m => .permanent m
  | .runtime e => e

/-- The required fields of the `QueueMessage` io-ts codec
(`azure_queues.ts` lines 22-38): `dequeueCount`, `id`, `popReceipt`.  The
optional fields never affect whether decoding succeeds and are not used by
the verified functions, so they are omitted. -/
structure QueueMessage where
  dequeueCount : ℕ
  id : String
  popReceipt : String
deriving DecidableEq

/-- The `Context["bindings"]` object handed to the queue handler: each
required field may be absent (a present field of the wrong type is
rejected by the codec exactly like an absent one). -/
structure QueueMessageBindings where
  dequeueCount : Option ℕ
  id : Option String
  popReceipt : Option String
deriving DecidableEq

/-- `QueueMessage.decode(queueMessageBindings)` (`azure_queues.ts` line
112): succeeds exactly when all three required fields are present. -/
def decodeQueueMessage (b : QueueMessageBindings) : Option QueueMessage :=
  match b.dequeueCount, b.id, b.popReceipt with
  | some d, some i, some p => some ⟨d, i, p⟩
  | _, _, _ => none

/-- Outcome of awaiting a `Promise<Either<RuntimeError, {}>>` callback:
resolved with `Left e`, resolved with a `Right` success, or rejected. -/
inductive CallbackResult
  | left (e : RuntimeError)
  | right
  | thrown (message : String)
deriving DecidableEq

/-- Observable side effects of one engine invocation, in order:
transport calls, swallowed-error logging, and callback invocations
together with the result each callback produced. -/
inductive Event
  | updateMessageCall (queueName id popReceipt : String) (visibilityTimeoutSec : ℕ)
  | logTransportError (message : String)
  | onTransientCall (e : RuntimeError) (result : CallbackResult)
  | onPermanentCall (e : RuntimeError) (result : CallbackResult)
deriving DecidableEq

/-- `updateMessageVisibilityTimeout` (`azure_queues.ts` lines 107-165).
`transportError` is the error, if any, that `queueService.updateMessage`
reports to its callback; the code logs it and resolves `true` anyway
("try to schedule a retry even in case updateMessage fails").  The first
component is the awaited promise: `Except.error` is a rejection. -/
def updateMessageVisibilityTimeout (transportError : Option String)
    (queueName : String) (b : QueueMessageBindings) :
    Except String Bool × List Event :=
  match decodeQueueMessage b with
  | none => (.error "INVALID_QUEUE_MESSAGE_IN_BINDINGS", [])
  | some queueMessage =>
    match getDelaySecForRetries queueMessage.dequeueCount with
    | some visibilityTimeoutSec =>
      (.ok true,
        .updateMessageCall queueName queueMessage.id queueMessage.popReceipt
            visibilityTimeoutSec
          :: (match transportError with
              | some m => [.logTransportError m]
              | none => []))
    | none => (.ok false, [])

/-- Result of awaiting `handleQueueProcessingFailure`: the promise either
resolves (void) or rejects with an error message. -/
inductive HandleResult
  | resolved
  | rejected (message : String)
deriving DecidableEq

/-- `handleQueueProcessingFailure` (`azure_queues.ts` lines 175-237), with
an explicit recursion-depth fuel: `none` means the fuel ran out before the
call chain finished.  `handleQueueProcessingFailure` below fixes the fuel
at 2, which the C10 theorem proves is always enough. -/
def handleQueueProcessingFailureAux (fuel : ℕ) (transportError : Option String)
    (b : QueueMessageBindings) (queueName : String)
    (onTransientError onPermanentError : RuntimeError → CallbackResult)
    (error : JsError) : Option (HandleResult × List Event) :=
  match fuel with
  | 0 => none
  | fuel + 1 =>
    let runtimeError := toRuntimeError error
    if isTransientError runtimeError then
      match updateMessageVisibilityTimeout transportError queueName b with
      | (.error m, evs) => some (.rejected m, evs)
      | (.ok shouldTriggerARetry, evs) =>
        -- the callback is invoked; a Left result is only logged and a
        -- rejection is caught, so the decision below ignores its result
        let evs := evs ++ [.onTransientCall runtimeError (onTransientError runtimeError)]
        if shouldTriggerARetry then
          some (.rejected ("Retry|" ++ queueName ++ "|" ++ runtimeError.message), evs)
        else
          some (.resolved, evs)
    else
      match onPermanentError runtimeError with
      | .right => some (.resolved, [.onPermanentCall runtimeError .right])
      | .thrown m => some (.rejected m, [.onPermanentCall runtimeError (.thrown m)])
      | .left e2 =>
        (handleQueueProcessingFailureAux fuel transportError b queueName
            onTransientError onPermanentError
            (.runtime (TransientError e2.message))).map
          fun r => (r.1, .onPermanentCall runtimeError (.left e2) :: r.2)

/-- `handleQueueProcessingFailure` at its actual recursion depth. -/
def handleQueueProcessingFailure (transportError : Option String)
    (b : QueueMessageBindings) (queueName : String)
    (onTransientError onPermanentError : RuntimeError → CallbackResult)
    (error : JsError) : Option (HandleResult × List Event) :=
  handleQueueProcessingFailureAux 2 transportError b queueName
    onTransientError onPermanentError error

/-- Does an event record an invocation of `onPermanentError`? -/
def isOnPermanentCall : Event → Bool
  | .onPermanentCall _ _ => true
  | _ => false

/-- Does an event record an invocation of `onTransientError`? -/
def isOnTransientCall : Event → Bool
  | .onTransientCall _ _ => true
  | _ => false

/-- Does an event record a `queueService.updateMessage` transport call? -/
def isUpdateMessageCall : Event → Bool
  | .updateMessageCall _ _ _ _ => true
  | _ => false

theorem getDelay_some (r m mb : ℕ) (h : r ≤ m) :
    getDelaySecForRetries r m mb = some (ceilDiv1000 (mb * 2 ^ r)) := by
  unfold getDelaySecForRetries
  rw [Option.filter_some]
  simp [h]

theorem getDelay_none (r m mb : ℕ) (h : m < r) :
    getDelaySecForRetries r m mb = none := by
  unfold getDelaySecForRetries
  rw [Option.filter_some]
  simp [Nat.not_le.mpr h]

theorem ceilDiv1000_mono {a b : ℕ} (h : a ≤ b) : ceilDiv1000 a ≤ ceilDiv1000 b :=
  Nat.div_le_div_right (by omega)

theorem update_invalid (te : Option String) (qn : String) (b : QueueMessageBindings)
    (h : decodeQueueMessage b = none) :
    updateMessageVisibilityTimeout te qn b
      = (.error "INVALID_QUEUE_MESSAGE_IN_BINDINGS", []) := by
  unfold updateMessageVisibilityTimeout
  rw [h]

theorem update_some (te : Option String) (qn : String) (b : QueueMessageBindings)
    (qm : QueueMessage) (hdec : decodeQueueMessage b = some qm)
    (hd : qm.dequeueCount ≤ MAX_RETRIES) :
    updateMessageVisibilityTimeout te qn b
      = (.ok true,
          .updateMessageCall qn qm.id qm.popReceipt
              (ceilDiv1000 (MIN_BACKOFF_MS * 2 ^ qm.dequeueCount))
            :: (match te with
                | some m => [.logTransportError m]
                | none => [])) := by
  unfold updateMessageVisibilityTimeout
  rw [hdec]
  simp only [getDelay_some _ _ _ hd]

theorem update_exhausted (te : Option String) (qn : String) (b : QueueMessageBindings)
    (qm : QueueMessage) (hdec : decodeQueueMessage b = some qm)
    (hd : MAX_RETRIES < qm.dequeueCount) :
    updateMessageVisibilityTimeout te qn b = (.ok false, []) := by
  unfold updateMessageVisibilityTimeout
  rw [hdec]
  simp only [getDelay_none _ _ _ hd]

theorem aux_transient_retry (fuel : ℕ) (te : Option String) (b : QueueMessageBindings)
    (qn : String) (onT onP : RuntimeError → CallbackResult) (err : JsError) (m : String)
    (qm : QueueMessage) (htr : toRuntimeError err = .transient m)
    (hdec : decodeQueueMessage b = some qm) (hd : qm.dequeueCount ≤ MAX_RETRIES) :
    handleQueueProcessingFailureAux (fuel + 1) te b qn onT onP err
      = some (.rejected ("Retry|" ++ qn ++ "|" ++ m),
          (updateMessageVisibilityTimeout te qn b).2
            ++ [.onTransientCall (.transient m) (onT (.transient m))]) := by
  have hupd := update_some te qn b qm hdec hd
  simp [handleQueueProcessingFailureAux, htr, isTransientError, RuntimeError.message, hupd]

theorem aux_transient_stop (fuel : ℕ) (te : Option String) (b : QueueMessageBindings)
    (qn : String) (onT onP : RuntimeError → CallbackResult) (err : JsError) (m : String)
    (qm : QueueMessage) (htr : toRuntimeError err = .transient m)
    (hdec : decodeQueueMessage b = some qm) (hd : MAX_RETRIES < qm.dequeueCount) :
    handleQueueProcessingFailureAux (fuel + 1) te b qn onT onP err
      = some (.resolved, [.onTransientCall (.transient m) (onT (.transient m))]) := by
  have hupd := update_exhausted te qn b qm hdec hd
  simp [handleQueueProcessingFailureAux, htr, isTransientError, hupd]

theorem aux_transient_invalid (fuel : ℕ) (te : Option String) (b : QueueMessageBindings)
    (qn : String) (onT onP : RuntimeError → CallbackResult) (err : JsError) (m : String)
    (htr : toRuntimeError err = .transient m) (hdec : decodeQueueMessage b = none) :
    handleQueueProcessingFailureAux (fuel + 1) te b qn onT onP err
      = some (.rejected "INVALID_QUEUE_MESSAGE_IN_BINDINGS", []) := by
  have hupd := update_invalid te qn b hdec
  simp [handleQueueProcessingFailureAux, htr, isTransientError, hupd]

theorem aux_permanent_right (fuel : ℕ) (te : Option String) (b : QueueMessageBindings)
    (qn : String) (onT onP : RuntimeError → CallbackResult) (err : JsError) (m : String)
    (htr : toRuntimeError err = .permanent m) (h : onP (.permanent m) = .right) :
    handleQueueProcessingFailureAux (fuel + 1) te b qn onT onP err
      = some (.resolved, [.onPermanentCall (.permanent m) .right]) := by
  simp [handleQueueProcessingFailureAux, htr, isTransientError, h]

theorem aux_permanent_thrown (fuel : ℕ) (te : Option String) (b : QueueMessageBindings)
    (qn : String) (onT onP : RuntimeError → CallbackResult) (err : JsError) (m em : String)
    (htr : toRuntimeError err = .permanent m) (h : onP (.permanent m) = .thrown em) :
    handleQueueProcessingFailureAux (fuel + 1) te b qn onT onP err
      = some (.rejected em, [.onPermanentCall (.permanent m) (.thrown em)]) := by
  simp [handleQueueProcessingFailureAux, htr, isTransientError, h]

theorem aux_permanent_left (fuel : ℕ) (te : Option String) (b : QueueMessageBindings)
    (qn : String) (onT onP : RuntimeError → CallbackResult) (err : JsError) (m : String)
    (e2 : RuntimeError) (htr : toRuntimeError err = .permanent m)
    (h : onP (.permanent m) = .left e2) :
    handleQueueProcessingFailureAux (fuel + 1) te b qn onT onP err
      = (handleQueueProcessingFailureAux fuel te b qn onT onP
            (.runtime (TransientError e2.message))).map
          fun r => (r.1, .onPermanentCall (.permanent m) (.left e2) :: r.2) := by
  simp [handleQueueProcessingFailureAux, htr, isTransientError, h]

theorem aux_transient_fuel_eq (fuel₁ fuel₂ : ℕ) (h₁ : 0 < fuel₁) (h₂ : 0 < fuel₂)
    (te : Option String) (b : QueueMessageBindings) (qn : String)
    (onT onP : RuntimeError → CallbackResult) (err : JsError) (m : String)
    (htr : toRuntimeError err = .transient m) :
    handleQueueProcessingFailureAux fuel₁ te b qn onT onP err
      = handleQueueProcessingFailureAux fuel₂ te b qn onT onP err := by
  obtain ⟨k₁, rfl⟩ := Nat.exists_eq_add_of_lt h₁
  obtain ⟨k₂, rfl⟩ := Nat.exists_eq_add_of_lt h₂
  simp only [Nat.zero_add]
  simp [handleQueueProcessingFailureAux, htr, isTransientError]

theorem aux_transient_isSome (fuel : ℕ) (te : Option String) (b : QueueMessageBindings)
    (qn : String) (onT onP : RuntimeError → CallbackResult) (err : JsError) (m : String)
    (htr : toRuntimeError err = .transient m) :
    (handleQueueProcessingFailureAux (fuel + 1) te b qn onT onP err).isSome = true := by
  rcases hd : decodeQueueMessage b with _ | qm
  · rw [aux_transient_invalid fuel te b qn onT onP err m htr hd]
    rfl
  · rcases Nat.lt_or_ge MAX_RETRIES qm.dequeueCount with hlt | hge
    · rw [aux_transient_stop fuel te b qn onT onP err m qm htr hd hlt]
      rfl
    · rw [aux_transient_retry fuel te b qn onT onP err m qm htr hd hge]
      rfl

theorem aux_transient_retry' (fuel : ℕ) (hf : 0 < fuel) (te : Option String)
    (b : QueueMessageBindings) (qn : String) (onT onP : RuntimeError → CallbackResult)
    (err : JsError) (m : String) (qm : QueueMessage) (htr : toRuntimeError err = .transient m)
    (hdec : decodeQueueMessage b = some qm) (hd : qm.dequeueCount ≤ MAX_RETRIES) :
    handleQueueProcessingFailureAux fuel te b qn onT onP err
      = some (.rejected ("Retry|" ++ qn ++ "|" ++ m),
          (updateMessageVisibilityTimeout te qn b).2
            ++ [.onTransientCall (.transient m) (onT (.transient m))]) := by
  obtain ⟨k, rfl⟩ := Nat.exists_eq_add_of_lt hf
  exact aux_transient_retry (0 + k) te b qn onT onP err m qm htr hdec hd

theorem aux_transient_stop' (fuel : ℕ) (hf : 0 < fuel) (te : Option String)
    (b : QueueMessageBindings) (qn : String) (onT onP : RuntimeError → CallbackResult)
    (err : JsError) (m : String) (qm : QueueMessage) (htr : toRuntimeError err = .transient m)
    (hdec : decodeQueueMessage b = some qm) (hd : MAX_RETRIES < qm.dequeueCount) :
    handleQueueProcessingFailureAux fuel te b qn onT onP err
      = some (.resolved, [.onTransientCall (.transient m) (onT (.transient m))]) := by
  obtain ⟨k, rfl⟩ := Nat.exists_eq_add_of_lt hf
  exact aux_transient_stop (0 + k) te b qn onT onP err m qm htr hdec hd

theorem aux_transient_invalid' (fuel : ℕ) (hf : 0 < fuel) (te : Option String)
    (b : QueueMessageBindings) (qn : String) (onT onP : RuntimeError → CallbackResult)
    (err : JsError) (m : String) (htr : toRuntimeError err = .transient m)
    (hdec : decodeQueueMessage b = none) :
    handleQueueProcessingFailureAux fuel te b qn onT onP err
      = some (.rejected "INVALID_QUEUE_MESSAGE_IN_BINDINGS", []) := by
  obtain ⟨k, rfl⟩ := Nat.exists_eq_add_of_lt hf
  exact aux_transient_invalid (0 + k) te b qn onT onP err m htr hdec

theorem aux_permanent_right' (fuel : ℕ) (hf : 0 < fuel) (te : Option String)
    (b : QueueMessageBindings) (qn : String) (onT onP : RuntimeError → CallbackResult)
    (err : JsError) (m : String) (htr : toRuntimeError err = .permanent m)
    (h : onP (.permanent m) = .right) :
    handleQueueProcessingFailureAux fuel te b qn onT onP err
      = some (.resolved, [.onPermanentCall (.permanent m) .right]) := by
  obtain ⟨k, rfl⟩ := Nat.exists_eq_add_of_lt hf
  exact aux_permanent_right (0 + k) te b qn onT onP err m htr h

theorem aux_permanent_thrown' (fuel : ℕ) (hf : 0 < fuel) (te : Option String)
    (b : QueueMessageBindings) (qn : String) (onT onP : RuntimeError → CallbackResult)
    (err : JsError) (m em : String) (htr : toRuntimeError err = .permanent m)
    (h : onP (.permanent m) = .thrown em) :
    handleQueueProcessingFailureAux fuel te b qn onT onP err
      = some (.rejected em, [.onPermanentCall (.permanent m) (.thrown em)]) := by
  obtain ⟨k, rfl⟩ := Nat.exists_eq_add_of_lt hf
  exact aux_permanent_thrown (0 + k) te b qn onT onP err m em htr h

theorem aux_permanent_left_norm (fuel : ℕ) (hf : 1 < fuel) (te : Option String)
    (b : QueueMessageBindings) (qn : String) (onT onP : RuntimeError → CallbackResult)
    (err : JsError) (m : String) (e2 : RuntimeError)
    (htr : toRuntimeError err = .permanent m) (h : onP (.permanent m) = .left e2) :
    handleQueueProcessingFailureAux fuel te b qn onT onP err
      = (handleQueueProcessingFailureAux 1 te b qn onT onP
            (.runtime (TransientError e2.message))).map
          fun r => (r.1, .onPermanentCall (.permanent m) (.left e2) :: r.2) := by
  obtain ⟨k, rfl⟩ := Nat.exists_eq_add_of_lt hf
  rw [aux_permanent_left (1 + k) te b qn onT onP err m e2 htr h]
  congr 1
  exact aux_transient_fuel_eq (1 + k) 1 (by omega) one_pos te b qn onT onP
    (.runtime (TransientError e2.message)) e2.message rfl

theorem aux_transient_isSome' (fuel : ℕ) (hf : 0 < fuel) (te : Option String)
    (b : QueueMessageBindings) (qn : String) (onT onP : RuntimeError → CallbackResult)
    (err : JsError) (m : String) (htr : toRuntimeError err = .transient m) :
    (handleQueueProcessingFailureAux fuel te b qn onT onP err).isSome = true := by
  obtain ⟨k, rfl⟩ := Nat.exists_eq_add_of_lt hf
  exact aux_transient_isSome (0 + k) te b qn onT onP err m htr

theorem update_countP_permanentCall (te : Option String) (qn : String)
    (b : QueueMessageBindings) :
    ((updateMessageVisibilityTimeout te qn b).2.countP isOnPermanentCall) = 0 := by
  rcases hdec : decodeQueueMessage b with _ | qm
  · rw [update_invalid te qn b hdec]
    rfl
  · rcases Nat.lt_or_ge MAX_RETRIES qm.dequeueCount with hlt | hge
    · rw [update_exhausted te qn b qm hdec hlt]
      rfl
    · rw [update_some te qn b qm hdec hge]
      rcases te with _ | msg <;> rfl

/-- C6: `MAX_RETRIES` is defined as `floor(log2(MAX_BACKOFF_MS / MIN_BACKOFF_MS))`
with `MIN_BACKOFF_MS = 285` and `MAX_BACKOFF_MS = 7*24*3600*1000 = 604800000`;
the derivation (stated both over the naturals, as in the embedding, and as
the floor of the real base-2 logarithm of the real quotient) yields the
specific constant `21`, and with this bound the last possible retry delay
`getDelaySecForRetries MAX_RETRIES` stays `≤ MAX_BACKOFF_MS / 1000` seconds. -/
theorem MAX_RETRIES_spec :
    MIN_BACKOFF_MS = 285 ∧ MAX_BACKOFF_MS = 604800000
    ∧ MAX_RETRIES = Nat.log 2 (MAX_BACKOFF_MS / MIN_BACKOFF_MS)
    ∧ ⌊Real.logb 2 ((MAX_BACKOFF_MS : ℝ) / (MIN_BACKOFF_MS : ℝ))⌋ = 21
    ∧ MAX_RETRIES = 21
    ∧ ∃ v, getDelaySecForRetries MAX_RETRIES = some v ∧ v ≤ MAX_BACKOFF_MS / 1000 := by
  refine ⟨rfl, by norm_num [MAX_BACKOFF_MS], rfl, ?_, MAX_RETRIES_eq, ?_⟩
  · have hpos : (0:ℝ) ≤ (MAX_BACKOFF_MS : ℝ) / (MIN_BACKOFF_MS : ℝ) := by positivity
    have hfloor := @Real.floor_logb_natCast 2 ((MAX_BACKOFF_MS : ℝ) / (MIN_BACKOFF_MS : ℝ)) hpos
    rw [Nat.cast_ofNat] at hfloor
    have hone : (1:ℝ) ≤ (MAX_BACKOFF_MS : ℝ) / (MIN_BACKOFF_MS : ℝ) := by
      rw [show ((MAX_BACKOFF_MS : ℕ) : ℝ) = 604800000 by norm_num [MAX_BACKOFF_MS],
          show ((MIN_BACKOFF_MS : ℕ) : ℝ) = 285 by norm_num [MIN_BACKOFF_MS]]
      norm_num
    rw [hfloor, Int.log_of_one_le_right 2 hone, Nat.floor_div_nat, Nat.floor_natCast]
    exact_mod_cast natLog_const
  · refine ⟨_, getDelay_some _ _ _ le_rfl, ?_⟩
    rw [MAX_RETRIES_eq]
    decide

/-- C5: with the default bounds `minBackoff = 285` ms and
`maxBackoff = 604800000` ms, for every `deliveryCount` in `[1, MAX_RETRIES]`
the value `v` returned by `getDelaySecForRetries deliveryCount` satisfies
`minBackoff * 2^deliveryCount / 1000 ≤ v` (exactly, over ℚ) and
`v ≤ maxBackoff / 1000` (rounded up), and for
`deliveryCount > MAX_RETRIES` it returns `none`. -/
theorem getDelaySecForRetries_bounds (dc : ℕ) :
    (1 ≤ dc → dc ≤ MAX_RETRIES →
      ∃ v, getDelaySecForRetries dc = some v
        ∧ ((MIN_BACKOFF_MS : ℚ) * 2 ^ dc) / 1000 ≤ (v : ℚ)
        ∧ v ≤ MAX_BACKOFF_MS / 1000)
    ∧ (MAX_RETRIES < dc → getDelaySecForRetries dc = none) := by
  constructor
  · intro _ h2
    refine ⟨_, getDelay_some _ _ _ h2, ?_, ?_⟩
    · have hle := le_ceilDiv1000 (MIN_BACKOFF_MS * 2 ^ dc)
      have hcast : ((MIN_BACKOFF_MS * 2 ^ dc : ℕ) : ℚ) = (MIN_BACKOFF_MS : ℚ) * 2 ^ dc := by
        push_cast
        ring
      rw [hcast] at hle
      exact hle
    · have hpow : (2:ℕ) ^ dc ≤ 2 ^ 21 :=
        Nat.pow_le_pow_right (by norm_num) (MAX_RETRIES_eq ▸ h2)
      have hmono : ceilDiv1000 (MIN_BACKOFF_MS * 2 ^ dc)
          ≤ ceilDiv1000 (MIN_BACKOFF_MS * 2 ^ 21) :=
        ceilDiv1000_mono (Nat.mul_le_mul_left _ hpow)
      have hval : ceilDiv1000 (MIN_BACKOFF_MS * 2 ^ 21) ≤ MAX_BACKOFF_MS / 1000 := by decide
      omega
  · intro h
    exact getDelay_none _ _ _ h

/-- C5 witness: the bounds hold concretely at `deliveryCount = 1`, and the
policy is exhausted at `deliveryCount = 22`. -/
theorem getDelaySecForRetries_bounds_witness :
    (∃ v, getDelaySecForRetries 1 = some v
        ∧ ((MIN_BACKOFF_MS : ℚ) * 2 ^ 1) / 1000 ≤ (v : ℚ)
        ∧ v ≤ MAX_BACKOFF_MS / 1000)
    ∧ getDelaySecForRetries 22 = none :=
  ⟨(getDelaySecForRetries_bounds 1).1 le_rfl (by rw [MAX_RETRIES_eq]; norm_num),
   (getDelaySecForRetries_bounds 22).2 (by rw [MAX_RETRIES_eq]; norm_num)⟩

/-- C2: `handleQueueProcessingFailure` resolves normally exactly on a
Stopped outcome and rejects exactly when a retry is requested: for a
transient-classified error with valid queue-message bindings and
`dequeueCount ≤ MAX_RETRIES` it rejects (throws the retry signal); for a
transient error with `dequeueCount > MAX_RETRIES` it resolves without
throwing; for a permanent-classified error whose `onPermanentError`
callback returns a success (`Right`) it resolves without throwing. -/
theorem handleQueueProcessingFailure_outcomes (te : Option String)
    (b : QueueMessageBindings) (qm : QueueMessage) (qn : String)
    (onT onP : RuntimeError → CallbackResult) (m : String)
    (hdec : decodeQueueMessage b = some qm) :
    (qm.dequeueCount ≤ MAX_RETRIES →
      (handleQueueProcessingFailure te b qn onT onP (.runtime (.transient m))).map Prod.fst
        = some (.rejected ("Retry|" ++ qn ++ "|" ++ m)))
    ∧ (MAX_RETRIES < qm.dequeueCount →
      (handleQueueProcessingFailure te b qn onT onP (.runtime (.transient m))).map Prod.fst
        = some .resolved)
    ∧ (onP (.permanent m) = .right →
      (handleQueueProcessingFailure te b qn onT onP (.runtime (.permanent m))).map Prod.fst
        = some .resolved) := by
  refine ⟨fun hd => ?_, fun hd => ?_, fun h => ?_⟩
  · show (handleQueueProcessingFailureAux 2 te b qn onT onP _).map Prod.fst = _
    rw [aux_transient_retry' 2 (by norm_num) te b qn onT onP
        (.runtime (.transient m)) m qm rfl hdec hd]
    rfl
  · show (handleQueueProcessingFailureAux 2 te b qn onT onP _).map Prod.fst = _
    rw [aux_transient_stop' 2 (by norm_num) te b qn onT onP
        (.runtime (.transient m)) m qm rfl hdec hd]
    rfl
  · show (handleQueueProcessingFailureAux 2 te b qn onT onP _).map Prod.fst = _
    rw [aux_permanent_right' 2 (by norm_num) te b qn onT onP
        (.runtime (.permanent m)) m rfl h]
    rfl

/-- C2 witness: concrete instances of all three outcomes
(`dequeueCount = 1` rejects with the retry signal, `dequeueCount = 22`
resolves, a permanent error with succeeding cleanup resolves). -/
theorem handleQueueProcessingFailure_outcomes_witness :
    ((handleQueueProcessingFailure (some "terr") ⟨some 1, some "i", some "p"⟩ "q"
        (fun _ => .left (.permanent "cb")) (fun _ => .right)
        (.runtime (.transient "t"))).map Prod.fst
      = some (.rejected ("Retry|" ++ "q" ++ "|" ++ "t")))
    ∧ ((handleQueueProcessingFailure (some "terr") ⟨some 22, some "i", some "p"⟩ "q"
        (fun _ => .left (.permanent "cb")) (fun _ => .right)
        (.runtime (.transient "t"))).map Prod.fst = some .resolved)
    ∧ ((handleQueueProcessingFailure (some "terr") ⟨some 1, some "i", some "p"⟩ "q"
        (fun _ => .left (.permanent "cb")) (fun _ => .right)
        (.runtime (.permanent "t"))).map Prod.fst = some .resolved) := by
  refine ⟨(handleQueueProcessingFailure_outcomes (some "terr")
      ⟨some 1, some "i", some "p"⟩ ⟨1, "i", "p"⟩ "q"
      (fun _ => .left (.permanent "cb")) (fun _ => .right) "t" rfl).1 ?_,
    (handleQueueProcessingFailure_outcomes (some "terr")
      ⟨some 22, some "i", some "p"⟩ ⟨22, "i", "p"⟩ "q"
      (fun _ => .left (.permanent "cb")) (fun _ => .right) "t" rfl).2.1 ?_,
    (handleQueueProcessingFailure_outcomes (some "terr")
      ⟨some 1, some "i", some "p"⟩ ⟨1, "i", "p"⟩ "q"
      (fun _ => .left (.permanent "cb")) (fun _ => .right) "t" rfl).2.2 rfl⟩
  · rw [MAX_RETRIES_eq]
    decide
  · rw [MAX_RETRIES_eq]
    decide

/-- C3: on a permanent-classified error, if `onPermanentError` returns
`Left e2`, `handleQueueProcessingFailure` re-enters itself with the
synthesized `TransientError e2.message` on the same bindings (hence the
same unchanged `dequeueCount`), and the recursive call behaves exactly as
the transient path for that `dequeueCount`: retry requested (rejection)
when `dequeueCount ≤ MAX_RETRIES`, Stopped (resolution) otherwise. -/
theorem handleQueueProcessingFailure_escalation (te : Option String)
    (b : QueueMessageBindings) (qn : String) (onT onP : RuntimeError → CallbackResult)
    (m : String) (e2 : RuntimeError) (qm : QueueMessage)
    (h : onP (.permanent m) = .left e2) (hdec : decodeQueueMessage b = some qm) :
    handleQueueProcessingFailure te b qn onT onP (.runtime (.permanent m))
      = (handleQueueProcessingFailure te b qn onT onP
            (.runtime (TransientError e2.message))).map
          (fun r => (r.1, .onPermanentCall (.permanent m) (.left e2) :: r.2))
    ∧ (qm.dequeueCount ≤ MAX_RETRIES →
        (handleQueueProcessingFailure te b qn onT onP (.runtime (.permanent m))).map Prod.fst
          = some (.rejected ("Retry|" ++ qn ++ "|" ++ e2.message)))
    ∧ (MAX_RETRIES < qm.dequeueCount →
        (handleQueueProcessingFailure te b qn onT onP (.runtime (.permanent m))).map Prod.fst
          = some .resolved) := by
  have hnorm := aux_permanent_left_norm 2 (by norm_num) te b qn onT onP
      (.runtime (.permanent m)) m e2 rfl h
  refine ⟨?_, fun hd => ?_, fun hd => ?_⟩
  · show handleQueueProcessingFailureAux 2 te b qn onT onP _ = _
    rw [hnorm]
    rfl
  · show (handleQueueProcessingFailureAux 2 te b qn onT onP _).map Prod.fst = _
    rw [hnorm, aux_transient_retry' 1 one_pos te b qn onT onP
        (.runtime (TransientError e2.message)) e2.message qm rfl hdec hd]
    rfl
  · show (handleQueueProcessingFailureAux 2 te b qn onT onP _).map Prod.fst = _
    rw [hnorm, aux_transient_stop' 1 one_pos te b qn onT onP
        (.runtime (TransientError e2.message)) e2.message qm rfl hdec hd]
    rfl

/-- C3 witness: concrete escalation with `dequeueCount = 1` and an
always-failing cleanup callback, ending in the retry rejection carrying
the synthesized error's message. -/
theorem handleQueueProcessingFailure_escalation_witness :
    (handleQueueProcessingFailure none ⟨some 1, some "i", some "p"⟩ "q"
        (fun _ => .right) (fun _ => .left (.permanent "E")) (.runtime (.permanent "boom"))
      = (handleQueueProcessingFailure none ⟨some 1, some "i", some "p"⟩ "q"
          (fun _ => .right) (fun _ => .left (.permanent "E"))
          (.runtime (TransientError (RuntimeError.message (.permanent "E"))))).map
        (fun r => (r.1, .onPermanentCall (.permanent "boom") (.left (.permanent "E")) :: r.2)))
    ∧ ((handleQueueProcessingFailure none ⟨some 1, some "i", some "p"⟩ "q"
        (fun _ => .right) (fun _ => .left (.permanent "E"))
        (.runtime (.permanent "boom"))).map Prod.fst
      = some (.rejected ("Retry|" ++ "q" ++ "|" ++ RuntimeError.message (.permanent "E")))) := by
  have h := handleQueueProcessingFailure_escalation none ⟨some 1, some "i", some "p"⟩ "q"
      (fun _ => .right) (fun _ => .left (.permanent "E")) "boom" (.permanent "E")
      ⟨1, "i", "p"⟩ rfl rfl
  exact ⟨h.1, h.2.1 (by rw [MAX_RETRIES_eq]; decide)⟩

/-- C7: in the transient path, the final decision does not depend on the
`onTransientError` callback at all — whether it resolves `Right`, resolves
`Left` or rejects, the outcome is the same: the retry rejection when
`dequeueCount ≤ MAX_RETRIES`, resolution when exhausted. -/
theorem onTransientError_result_irrelevant (te : Option String)
    (b : QueueMessageBindings) (qn : String)
    (onT₁ onT₂ onP : RuntimeError → CallbackResult) (m : String) :
    (handleQueueProcessingFailure te b qn onT₁ onP (.runtime (.transient m))).map Prod.fst
      = (handleQueueProcessingFailure te b qn onT₂ onP (.runtime (.transient m))).map Prod.fst
    ∧ (∀ qm, decodeQueueMessage b = some qm →
        ((qm.dequeueCount ≤ MAX_RETRIES →
          (handleQueueProcessingFailure te b qn onT₁ onP (.runtime (.transient m))).map Prod.fst
            = some (.rejected ("Retry|" ++ qn ++ "|" ++ m)))
        ∧ (MAX_RETRIES < qm.dequeueCount →
          (handleQueueProcessingFailure te b qn onT₁ onP (.runtime (.transient m))).map Prod.fst
            = some .resolved))) := by
  constructor
  · rcases hdec : decodeQueueMessage b with _ | qm
    · show (handleQueueProcessingFailureAux 2 te b qn onT₁ onP _).map Prod.fst
        = (handleQueueProcessingFailureAux 2 te b qn onT₂ onP _).map Prod.fst
      rw [aux_transient_invalid' 2 (by norm_num) te b qn onT₁ onP
          (.runtime (.transient m)) m rfl hdec,
        aux_transient_invalid' 2 (by norm_num) te b qn onT₂ onP
          (.runtime (.transient m)) m rfl hdec]
    · rcases Nat.lt_or_ge MAX_RETRIES qm.dequeueCount with hlt | hge
      · show (handleQueueProcessingFailureAux 2 te b qn onT₁ onP _).map Prod.fst
          = (handleQueueProcessingFailureAux 2 te b qn onT₂ onP _).map Prod.fst
        rw [aux_transient_stop' 2 (by norm_num) te b qn onT₁ onP
            (.runtime (.transient m)) m qm rfl hdec hlt,
          aux_transient_stop' 2 (by norm_num) te b qn onT₂ onP
            (.runtime (.transient m)) m qm rfl hdec hlt]
        rfl
      · show (handleQueueProcessingFailureAux 2 te b qn onT₁ onP _).map Prod.fst
          = (handleQueueProcessingFailureAux 2 te b qn onT₂ onP _).map Prod.fst
        rw [aux_transient_retry' 2 (by norm_num) te b qn onT₁ onP
            (.runtime (.transient m)) m qm rfl hdec hge,
          aux_transient_retry' 2 (by norm_num) te b qn onT₂ onP
            (.runtime (.transient m)) m qm rfl hdec hge]
        rfl
  · intro qm hdec
    refine ⟨fun hd => ?_, fun hd => ?_⟩
    · show (handleQueueProcessingFailureAux 2 te b qn onT₁ onP _).map Prod.fst = _
      rw [aux_transient_retry' 2 (by norm_num) te b qn onT₁ onP
          (.runtime (.transient m)) m qm rfl hdec hd]
      rfl
    · show (handleQueueProcessingFailureAux 2 te b qn onT₁ onP _).map Prod.fst = _
      rw [aux_transient_stop' 2 (by norm_num) te b qn onT₁ onP
          (.runtime (.transient m)) m qm rfl hdec hd]
      rfl

/-- C7 witness: a succeeding and a rejecting `onTransientError` callback
produce the same decision on a concrete transient failure, namely the
retry rejection for `dequeueCount = 1`. -/
theorem onTransientError_result_irrelevant_witness :
    ((handleQueueProcessingFailure none ⟨some 1, some "i", some "p"⟩ "q"
        (fun _ => .right) (fun _ => .right) (.runtime (.transient "t"))).map Prod.fst
      = (handleQueueProcessingFailure none ⟨some 1, some "i", some "p"⟩ "q"
          (fun _ => .thrown "x") (fun _ => .right) (.runtime (.transient "t"))).map Prod.fst)
    ∧ ((handleQueueProcessingFailure none ⟨some 1, some "i", some "p"⟩ "q"
        (fun _ => .right) (fun _ => .right) (.runtime (.transient "t"))).map Prod.fst
      = some (.rejected ("Retry|" ++ "q" ++ "|" ++ "t"))) := by
  have h := onTransientError_result_irrelevant none ⟨some 1, some "i", some "p"⟩ "q"
      (fun _ => .right) (fun _ => .thrown "x") (fun _ => .right) "t"
  exact ⟨h.1, (h.2 ⟨1, "i", "p"⟩ rfl).1 (by rw [MAX_RETRIES_eq]; decide)⟩

/-- C4: with valid bindings, `updateMessageVisibilityTimeout` resolves
`true` whenever the delay policy yields a delay for the message's
`dequeueCount` — even when the transport `updateMessage` call reports an
error, the resolved value is identical to the success case and the
transport call is recorded in the trace — and it resolves `false` exactly
when the delay policy reports exhausted (`dequeueCount > MAX_RETRIES`),
in which case no `updateMessage` transport call is attempted (the trace is
empty). -/
theorem updateMessageVisibilityTimeout_spec (te : Option String) (qn : String)
    (b : QueueMessageBindings) (qm : QueueMessage)
    (hdec : decodeQueueMessage b = some qm) :
    (∀ sec, getDelaySecForRetries qm.dequeueCount = some sec →
      (updateMessageVisibilityTimeout te qn b).1 = .ok true
      ∧ (updateMessageVisibilityTimeout te qn b).1
          = (updateMessageVisibilityTimeout none qn b).1
      ∧ Event.updateMessageCall qn qm.id qm.popReceipt sec
          ∈ (updateMessageVisibilityTimeout te qn b).2)
    ∧ (getDelaySecForRetries qm.dequeueCount = none →
        updateMessageVisibilityTimeout te qn b = (.ok false, []))
    ∧ (getDelaySecForRetries qm.dequeueCount = none ↔ MAX_RETRIES < qm.dequeueCount) := by
  refine ⟨fun sec hsec => ?_, fun hn => ?_, ?_⟩
  · have hd : qm.dequeueCount ≤ MAX_RETRIES := by
      by_contra hlt
      rw [getDelay_none _ _ _ (Nat.not_le.mp hlt)] at hsec
      cases hsec
    rw [getDelay_some _ _ _ hd] at hsec
    injection hsec with hsec
    subst hsec
    refine ⟨?_, ?_, ?_⟩
    · rw [update_some te qn b qm hdec hd]
    · rw [update_some te qn b qm hdec hd, update_some none qn b qm hdec hd]
    · simp [update_some te qn b qm hdec hd]
  · have hd : MAX_RETRIES < qm.dequeueCount := by
      by_contra hle
      rw [getDelay_some _ _ _ (Nat.not_lt.mp hle)] at hn
      cases hn
    exact update_exhausted te qn b qm hdec hd
  · constructor
    · intro hn
      by_contra hle
      rw [getDelay_some _ _ _ (Nat.not_lt.mp hle)] at hn
      cases hn
    · intro hlt
      exact getDelay_none _ _ _ hlt

/-- C4 witness: at `dequeueCount = 1` with a reported transport error the
promise still resolves `true`; at `dequeueCount = 22` it resolves `false`
with an empty trace. -/
theorem updateMessageVisibilityTimeout_spec_witness :
    ((updateMessageVisibilityTimeout (some "boom") "q" ⟨some 1, some "i", some "p"⟩).1
        = .ok true
      ∧ (updateMessageVisibilityTimeout (some "boom") "q" ⟨some 1, some "i", some "p"⟩).1
        = (updateMessageVisibilityTimeout none "q" ⟨some 1, some "i", some "p"⟩).1)
    ∧ updateMessageVisibilityTimeout (some "boom") "q" ⟨some 22, some "i", some "p"⟩
        = (.ok false, []) := by
  have hdelay1 : getDelaySecForRetries (1:ℕ) = some 1 := by
    rw [getDelay_some 1 MAX_RETRIES MIN_BACKOFF_MS (by rw [MAX_RETRIES_eq]; norm_num)]
    rfl
  have hdelay22 : getDelaySecForRetries (22:ℕ) = none :=
    getDelay_none 22 MAX_RETRIES MIN_BACKOFF_MS (by rw [MAX_RETRIES_eq]; norm_num)
  have h1 := (updateMessageVisibilityTimeout_spec (some "boom") "q"
      ⟨some 1, some "i", some "p"⟩ ⟨1, "i", "p"⟩ rfl).1 1 hdelay1
  have h22 := (updateMessageVisibilityTimeout_spec (some "boom") "q"
      ⟨some 22, some "i", some "p"⟩ ⟨22, "i", "p"⟩ rfl).2.1 hdelay22
  exact ⟨⟨h1.1, h1.2.1⟩, h22⟩

/-- C9: if the queue-message bindings fail validation against the
`QueueMessage` codec, `updateMessageVisibilityTimeout` rejects with
`INVALID_QUEUE_MESSAGE_IN_BINDINGS` instead of resolving a boolean, and
consequently `handleQueueProcessingFailure` on a transient-classified
error rejects with that same error with an empty trace — in particular
without ever invoking `onTransientError`. -/
theorem invalid_bindings_reject (te : Option String) (b : QueueMessageBindings)
    (qn : String) (onT onP : RuntimeError → CallbackResult) (m : String)
    (hdec : decodeQueueMessage b = none) :
    updateMessageVisibilityTimeout te qn b
        = (.error "INVALID_QUEUE_MESSAGE_IN_BINDINGS", [])
    ∧ handleQueueProcessingFailure te b qn onT onP (.runtime (.transient m))
        = some (.rejected "INVALID_QUEUE_MESSAGE_IN_BINDINGS", [])
    ∧ ((handleQueueProcessingFailure te b qn onT onP (.runtime (.transient m))).map
        fun r => r.2.countP isOnTransientCall) = some 0 := by
  refine ⟨update_invalid te qn b hdec, ?_, ?_⟩
  · exact aux_transient_invalid' 2 (by norm_num) te b qn onT onP
      (.runtime (.transient m)) m rfl hdec
  · show ((handleQueueProcessingFailureAux 2 te b qn onT onP _).map
        fun r => r.2.countP isOnTransientCall) = some 0
    rw [aux_transient_invalid' 2 (by norm_num) te b qn onT onP
        (.runtime (.transient m)) m rfl hdec]
    rfl

/-- C9 witness: bindings missing `dequeueCount` are rejected with the
`INVALID_QUEUE_MESSAGE_IN_BINDINGS` error and the callback is not run. -/
theorem invalid_bindings_reject_witness :
    updateMessageVisibilityTimeout (some "terr") "q" ⟨none, some "i", some "p"⟩
        = (.error "INVALID_QUEUE_MESSAGE_IN_BINDINGS", [])
    ∧ handleQueueProcessingFailure (some "terr") ⟨none, some "i", some "p"⟩ "q"
        (fun _ => .right) (fun _ => .right) (.runtime (.transient "t"))
        = some (.rejected "INVALID_QUEUE_MESSAGE_IN_BINDINGS", [])
    ∧ ((handleQueueProcessingFailure (some "terr") ⟨none, some "i", some "p"⟩ "q"
        (fun _ => .right) (fun _ => .right) (.runtime (.transient "t"))).map
          fun r => r.2.countP isOnTransientCall) = some 0 :=
  invalid_bindings_reject (some "terr") ⟨none, some "i", some "p"⟩ "q"
    (fun _ => .right) (fun _ => .right) "t" rfl

/-- C10: every invocation of `handleQueueProcessingFailure` terminates
with at most one recursive self-call: with any fuel `≥ 2` the computation
gives the same result as with fuel exactly 2, and that result is never a
fuel exhaustion (`isSome`) — recursion is triggered only from the
permanent branch and the synthesized `TransientError` is classified
transient, so the recursive invocation always takes the non-recursive
transient branch. -/
theorem handle_call_depth_le_two (fuel : ℕ) (te : Option String)
    (b : QueueMessageBindings) (qn : String)
    (onT onP : RuntimeError → CallbackResult) (err : JsError) (h : 2 ≤ fuel) :
    handleQueueProcessingFailureAux fuel te b qn onT onP err
      = handleQueueProcessingFailure te b qn onT onP err
    ∧ (handleQueueProcessingFailure te b qn onT onP err).isSome = true := by
  constructor
  · show _ = handleQueueProcessingFailureAux 2 te b qn onT onP err
    rcases htr : toRuntimeError err with m | m
    · exact aux_transient_fuel_eq fuel 2 (by omega) (by norm_num) te b qn onT onP err m htr
    · rcases hp : onP (.permanent m) with e2 | _ | em
      · rw [aux_permanent_left_norm fuel (by omega) te b qn onT onP err m e2 htr hp,
            aux_permanent_left_norm 2 (by norm_num) te b qn onT onP err m e2 htr hp]
      · rw [aux_permanent_right' fuel (by omega) te b qn onT onP err m htr hp,
            aux_permanent_right' 2 (by norm_num) te b qn onT onP err m htr hp]
      · rw [aux_permanent_thrown' fuel (by omega) te b qn onT onP err m em htr hp,
            aux_permanent_thrown' 2 (by norm_num) te b qn onT onP err m em htr hp]
  · show (handleQueueProcessingFailureAux 2 te b qn onT onP err).isSome = true
    rcases htr : toRuntimeError err with m | m
    · exact aux_transient_isSome' 2 (by norm_num) te b qn onT onP err m htr
    · rcases hp : onP (.permanent m) with e2 | _ | em
      · rw [aux_permanent_left_norm 2 (by norm_num) te b qn onT onP err m e2 htr hp]
        rw [Option.isSome_map']
        exact aux_transient_isSome' 1 one_pos te b qn onT onP
          (.runtime (TransientError e2.message)) e2.message rfl
      · rw [aux_permanent_right' 2 (by norm_num) te b qn onT onP err m htr hp]
        rfl
      · rw [aux_permanent_thrown' 2 (by norm_num) te b qn onT onP err m em htr hp]
        rfl

/-- C10 witness: with fuel 5 and a permanent error whose cleanup fails
(the input that exercises the one recursive self-call), the result is the
fuel-2 result and is not a fuel exhaustion. -/
theorem handle_call_depth_le_two_witness :
    (handleQueueProcessingFailureAux 5 none ⟨some 1, some "i", some "p"⟩ "q"
        (fun _ => .right) (fun _ => .left (.permanent "E")) (.runtime (.permanent "boom"))
      = handleQueueProcessingFailure none ⟨some 1, some "i", some "p"⟩ "q"
          (fun _ => .right) (fun _ => .left (.permanent "E")) (.runtime (.permanent "boom")))
    ∧ (handleQueueProcessingFailure none ⟨some 1, some "i", some "p"⟩ "q"
        (fun _ => .right) (fun _ => .left (.permanent "E"))
        (.runtime (.permanent "boom"))).isSome = true :=
  handle_call_depth_le_two 5 none ⟨some 1, some "i", some "p"⟩ "q"
    (fun _ => .right) (fun _ => .left (.permanent "E")) (.runtime (.permanent "boom"))
    (by norm_num)

/-- C8 counterexample: the permanent-to-transient escalation cannot loop
within one invocation, even when the cleanup callback keeps failing.  With
fuel 100 available, an always-failing `onPermanentError` and a permanent
error at `dequeueCount = 1`, the invocation completes after exactly one
recursive self-call — the trace contains exactly one `onPermanentCall` —
because the synthesized error is transient and the transient branch never
re-enters the function. -/
theorem escalation_unbounded_counterexample :
    handleQueueProcessingFailureAux 100 none ⟨some 1, some "i", some "p"⟩ "q"
        (fun _ => .right) (fun _ => .left (.permanent "E")) (.runtime (.permanent "boom"))
      = some (.rejected "Retry|q|E",
          [.onPermanentCall (.permanent "boom") (.left (.permanent "E")),
           .updateMessageCall "q" "i" "p" 1,
           .onTransientCall (.transient "E") .right])
    ∧ ((handleQueueProcessingFailureAux 100 none ⟨some 1, some "i", some "p"⟩ "q"
        (fun _ => .right) (fun _ => .left (.permanent "E"))
        (.runtime (.permanent "boom"))).map
          fun r => r.2.countP isOnPermanentCall) = some 1 := by
  have hd1 : (⟨1, "i", "p"⟩ : QueueMessage).dequeueCount ≤ MAX_RETRIES := by
    rw [MAX_RETRIES_eq]
    decide
  have h1 := aux_permanent_left_norm 100 (by norm_num) none ⟨some 1, some "i", some "p"⟩ "q"
      (fun _ => .right) (fun _ => .left (.permanent "E")) (.runtime (.permanent "boom"))
      "boom" (.permanent "E") rfl rfl
  rw [aux_transient_retry' 1 one_pos none ⟨some 1, some "i", some "p"⟩ "q"
      (fun _ => .right) (fun _ => .left (.permanent "E"))
      (.runtime (TransientError (RuntimeError.message (.permanent "E")))) "E"
      ⟨1, "i", "p"⟩ rfl rfl hd1,
    update_some none "q" ⟨some 1, some "i", some "p"⟩ ⟨1, "i", "p"⟩ rfl hd1] at h1
  exact ⟨by rw [h1]; rfl, by rw [h1]; rfl⟩

/-- C8 amended: the escalation does reuse the unchanged bindings, so the
delay policy sees the same `dequeueCount` again; but since the synthesized
error is classified transient and the transient branch never invokes
`onPermanentError`, the escalation is bounded within one invocation:
whenever `onPermanentError` fails, the invocation still completes, with
the cleanup callback invoked exactly once.  (Unbounded retrying of a
failing cleanup arises only across queue redeliveries, not inside one
invocation.) -/
theorem escalation_single_cleanup_call (te : Option String) (b : QueueMessageBindings)
    (qn : String) (onT onP : RuntimeError → CallbackResult) (m : String)
    (e2 : RuntimeError) (h : onP (.permanent m) = .left e2) :
    ∃ r, handleQueueProcessingFailure te b qn onT onP (.runtime (.permanent m)) = some r
      ∧ r.2.countP isOnPermanentCall = 1 := by
  have hnorm := aux_permanent_left_norm 2 (by norm_num) te b qn onT onP
      (.runtime (.permanent m)) m e2 rfl h
  rcases hdec : decodeQueueMessage b with _ | qm
  · refine ⟨(.rejected "INVALID_QUEUE_MESSAGE_IN_BINDINGS",
        [.onPermanentCall (.permanent m) (.left e2)]), ?_, rfl⟩
    show handleQueueProcessingFailureAux 2 te b qn onT onP _ = _
    rw [hnorm, aux_transient_invalid' 1 one_pos te b qn onT onP
        (.runtime (TransientError e2.message)) e2.message rfl hdec]
    rfl
  · rcases Nat.lt_or_ge MAX_RETRIES qm.dequeueCount with hlt | hge
    · refine ⟨(.resolved, [.onPermanentCall (.permanent m) (.left e2),
          .onTransientCall (.transient e2.message) (onT (.transient e2.message))]), ?_, rfl⟩
      show handleQueueProcessingFailureAux 2 te b qn onT onP _ = _
      rw [hnorm, aux_transient_stop' 1 one_pos te b qn onT onP
          (.runtime (TransientError e2.message)) e2.message qm rfl hdec hlt]
      rfl
    · refine ⟨(.rejected ("Retry|" ++ qn ++ "|" ++ e2.message),
          .onPermanentCall (.permanent m) (.left e2)
            :: ((updateMessageVisibilityTimeout te qn b).2
              ++ [.onTransientCall (.transient e2.message) (onT (.transient e2.message))])),
          ?_, ?_⟩
      · show handleQueueProcessingFailureAux 2 te b qn onT onP _ = _
        rw [hnorm, aux_transient_retry' 1 one_pos te b qn onT onP
            (.runtime (TransientError e2.message)) e2.message qm rfl hdec hge]
        rfl
      · simp [List.countP_cons, List.countP_append, isOnPermanentCall,
          update_countP_permanentCall te qn b]

/-- C8 amended witness: concrete instance with a failing cleanup callback
at `dequeueCount = 1`: the invocation completes and the cleanup ran
exactly once. -/
theorem escalation_single_cleanup_call_witness :
    ∃ r, handleQueueProcessingFailure none ⟨some 1, some "i", some "p"⟩ "q"
        (fun _ => .right) (fun _ => .left (.permanent "E"))
        (.runtime (.permanent "boom")) = some r
      ∧ r.2.countP isOnPermanentCall = 1 :=
  escalation_single_cleanup_call none ⟨some 1, some "i", some "p"⟩ "q"
    (fun _ => .right) (fun _ => .left (.permanent "E")) "boom" (.permanent "E") rfl

end AzureQueues
